import Mathlib

/-!
Shallow embedding of `script/race_swap_vs_update.py`: a one-shot tool that
races two transactions — a low-fee `GlobalStorage.setBatch` parameter update
and a high-fee `swapXtoY` swap — from one sender, submits them concurrently,
and classifies their on-chain ordering from the two receipts.

The pure computations of the script (fee-tier derivation, transaction
assembly, the ordering verdict) are embedded as Lean functions; the
straight-line sequence of chain-collaborator calls in `main` is embedded as
an explicit event trace in program order.
-/

namespace RaceSwapVsUpdate

/-- `gwei(n) = n * 10**9`, from the script. -/
def gwei (n : ℕ) : ℕ := n * 10 ^ 9

/-- `PROP_AMM_ADDRESS`, the 20-byte address as a number. -/
def PROP_AMM_ADDRESS : ℕ := 0xDc64a140Aa3E981100a9becA4E685f962f0cF6C9

/-- `GLOBAL_STORAGE_ADDRESS`, the 20-byte address as a number. -/
def GLOBAL_STORAGE_ADDRESS : ℕ := 0xe7f1725E7734CE288F8367e1Bb143E90bb3F0512

/-- `PAIR_ID`, the 32-byte WETH/USDC pair id as a number. -/
def PAIR_ID : ℕ := 0x667546a103822a3ea5b74bdf319f969f53de0a26339708852cfa21db6575a3be

/-- `swap_amount_weth = Web3.to_wei(1, 'ether')`. -/
def swapAmountWeth : ℕ := 10 ^ 18

/-- A fee configuration dict: either the fee-market pair
`{maxPriorityFeePerGas, maxFeePerGas}` or the legacy `{gasPrice}`. -/
inductive FeeConfig
  | eip1559 (maxPriorityFeePerGas maxFeePerGas : ℕ)
  | legacy (gasPrice : ℕ)
deriving DecidableEq, Repr

/-- The `maxPriorityFeePerGas` entry of a fee dict, if present. -/
def FeeConfig.maxPriorityFeePerGas? : FeeConfig → Option ℕ
  | .eip1559 p _ => some p
  | .legacy _ => none

/-- The `maxFeePerGas` entry of a fee dict, if present. -/
def FeeConfig.maxFeePerGas? : FeeConfig → Option ℕ
  | .eip1559 _ m => some m
  | .legacy _ => none

/-- The `gasPrice` entry of a fee dict, if present. -/
def FeeConfig.gasPrice? : FeeConfig → Option ℕ
  | .eip1559 _ _ => none
  | .legacy g => some g

/-- Lines 117–131 of the script: from the latest block's (nullable)
`baseFeePerGas`, compute `(fee_high, fee_low)`.  Fee-market mode uses
`maxFeePerGas = base_fee * 2 + gwei(tip)` with tips 10 and 1 gwei; the
legacy fallback uses fixed gas prices `gwei(100)` and `gwei(20)`. -/
def feeTiers : Option ℕ → FeeConfig × FeeConfig
  | some baseFee =>
      (.eip1559 (gwei 10) (baseFee * 2 + gwei 10),
       .eip1559 (gwei 1) (baseFee * 2 + gwei 1))
  | none => (.legacy (gwei 100), .legacy (gwei 20))

/-- The contract call carried by a transaction: `swapXtoY(pairId, amountXIn,
minAmountYOut)` on PropAMM, or `setBatch(keys, values)` on GlobalStorage
(bytes32 words modelled as numbers). -/
inductive Call
  | swapXtoY (pairId amountXIn minAmountYOut : ℕ)
  | setBatch (keys values : List ℕ)
deriving DecidableEq, Repr

/-- The `minAmountYOut` argument of a call, if it is a `swapXtoY` call. -/
def Call.minAmountYOut? : Call → Option ℕ
  | .swapXtoY _ _ m => some m
  | .setBatch _ _ => none

/-- Line 97–101: the swap call descriptor, built with the fixed pair id,
1 WETH in, and `minAmountYOut = 0`. -/
def swapCall : Call := .swapXtoY PAIR_ID swapAmountWeth 0

/-- A built transaction request, as produced by `build_transaction`:
destination, call payload, and the overrides dict
`{from, nonce, chainId, gas, **fee}`. -/
structure PendingTx where
  toAddr : ℕ
  callData : Call
  sender : ℕ
  nonce : ℕ
  chainId : ℕ
  gas : ℕ
  fee : FeeConfig
deriving DecidableEq, Repr

/-- The values `main` obtains from the chain collaborators before building:
chain id (line 76), sender address (line 75), the latest block's nullable
base fee (lines 117–118), the pending-inclusive transaction count
(line 133), the two independent gas estimates (lines 136–137), and the
results of the two read-only helper calls (lines 111–112). -/
structure ChainInputs where
  chainId : ℕ
  sender : ℕ
  baseFee : Option ℕ
  pendingNonce : ℕ
  gasSwapEstimate : ℕ
  gasUpdateEstimate : ℕ
  parameterKeys : List ℕ
  encodedValues : List ℕ
deriving DecidableEq, Repr

/-- Lines 144–160 of the script: build `(tx_update, tx_swap)`.  The update
gets the base nonce, the low fee tier, and `gas_update + 20000`; the swap
gets `base_nonce + 1`, the high fee tier, and `gas_swap + 20000`. -/
def buildTransactions (inp : ChainInputs) : PendingTx × PendingTx :=
  let fees := feeTiers inp.baseFee
  let txUpdate : PendingTx :=
    { toAddr := GLOBAL_STORAGE_ADDRESS
      callData := .setBatch inp.parameterKeys inp.encodedValues
      sender := inp.sender
      nonce := inp.pendingNonce
      chainId := inp.chainId
      gas := inp.gasUpdateEstimate + 20000
      fee := fees.2 }
  let txSwap : PendingTx :=
    { toAddr := PROP_AMM_ADDRESS
      callData := swapCall
      sender := inp.sender
      nonce := inp.pendingNonce + 1
      chainId := inp.chainId
      gas := inp.gasSwapEstimate + 20000
      fee := fees.1 }
  (txUpdate, txSwap)

/-- A transaction receipt: the fields the script reads or displays. -/
structure Receipt where
  status : ℕ
  blockNumber : ℕ
  blockHash : ℕ
  transactionIndex : ℕ
  gasUsed : ℕ
  effectiveGasPrice : ℕ
deriving DecidableEq, Repr

/-- The three classification outcomes of lines 212–227.  The same-block
outcomes carry the two transaction indices the script prints; the
different-blocks outcome carries the two block numbers. -/
inductive Verdict
  | sameBlockSwapFirst (idxSwap idxUpdate : ℕ)
  | sameBlockUpdateFirst (idxSwap idxUpdate : ℕ)
  | differentBlocks (blockSwap blockUpdate : ℕ)
deriving DecidableEq, Repr

/-- Lines 212–227 of the script: if the two receipts share a block number,
compare transaction indices — `tx_idx_swap < tx_idx_update` means the swap
executed first, otherwise (including equal indices) the update executed
first; with differing block numbers, report both blocks. -/
def orderingVerdict (rcptSwap rcptUpdate : Receipt) : Verdict :=
  if rcptSwap.blockNumber = rcptUpdate.blockNumber then
    if rcptSwap.transactionIndex < rcptUpdate.transactionIndex then
      .sameBlockSwapFirst rcptSwap.transactionIndex rcptUpdate.transactionIndex
    else
      .sameBlockUpdateFirst rcptSwap.transactionIndex rcptUpdate.transactionIndex
  else
    .differentBlocks rcptSwap.blockNumber rcptUpdate.blockNumber

/-- Whether the script's report of a verdict carries the warning glyph:
only the swap-executed-first branch (line 218) does; the update-first
branch prints a success glyph and the different-blocks branch neither. -/
def printsWarning : Verdict → Bool
  | .sameBlockSwapFirst _ _ => true
  | .sameBlockUpdateFirst _ _ => false
  | .differentBlocks _ _ => false

/-- Which of the two raced transactions an event concerns. -/
inductive TxLeg
  | update
  | swap
deriving DecidableEq, Repr

/-- One call to an external collaborator made by `main`.  `submitInit` is a
`pool.submit(send_raw_transaction, ...)` dispatch, `submitAwait` the
corresponding `future.result()`; likewise `receiptWaitInit` /
`receiptWaitAwait` for `wait_for_transaction_receipt`. -/
inductive ChainEvent
  | queryChainId
  | callGetParameterKeys
  | callEncodeParameters
  | queryLatestBlock
  | queryTransactionCount
  | estimateGas (leg : TxLeg)
  | signTx (leg : TxLeg)
  | submitInit (leg : TxLeg)
  | submitAwait (leg : TxLeg)
  | receiptWaitInit (leg : TxLeg)
  | receiptWaitAwait (leg : TxLeg)
deriving DecidableEq, Repr

/-- The collaborator calls of `main`, in program order: line 76 (chain id),
111–112 (helper calls), 117 (latest block), 133 (transaction count),
136–137 (gas estimates), 163–164 (signing), 172–175 (the submit fan-out:
both futures dispatched, then both results awaited), 184–187 (the receipt
fan-out, same shape). -/
def mainTrace : List ChainEvent :=
  [ .queryChainId,
    .callGetParameterKeys,
    .callEncodeParameters,
    .queryLatestBlock,
    .queryTransactionCount,
    .estimateGas .swap,
    .estimateGas .update,
    .signTx .swap,
    .signTx .update,
    .submitInit .update,
    .submitInit .swap,
    .submitAwait .update,
    .submitAwait .swap,
    .receiptWaitInit .update,
    .receiptWaitInit .swap,
    .receiptWaitAwait .update,
    .receiptWaitAwait .swap ]

/-- Recognizes submission-dispatch events. -/
def isSubmitInit : ChainEvent → Bool
  | .submitInit _ => true
  | _ => false

/-- Recognizes submission-result-await events. -/
def isSubmitAwait : ChainEvent → Bool
  | .submitAwait _ => true
  | _ => false

/-- Recognizes receipt-wait-dispatch events. -/
def isReceiptWaitInit : ChainEvent → Bool
  | .receiptWaitInit _ => true
  | _ => false

/-- Recognizes receipt-await events. -/
def isReceiptWaitAwait : ChainEvent → Bool
  | .receiptWaitAwait _ => true
  | _ => false

/-- The 0-based positions in a trace at which an event satisfying `p`
occurs. -/
def positions (p : ChainEvent → Bool) (evs : List ChainEvent) : List ℕ :=
  (evs.enum.filter (fun e => p e.2)).map Prod.fst

/-- C1: with a present base fee `b`, the high tier has priority fee 10 gwei
and max fee `2*b + 10 gwei`, the low tier priority fee 1 gwei and max fee
`2*b + 1 gwei`, each tier using its own tip; with the base fee absent, the
tiers are the fixed legacy gas prices 100 gwei and 20 gwei, with no
dependency on any base fee. -/
theorem fee_tier_calculator (b : ℕ) :
    (feeTiers (some b)).1.maxPriorityFeePerGas? = some (gwei 10) ∧
    (feeTiers (some b)).1.maxFeePerGas? = some (2 * b + gwei 10) ∧
    (feeTiers (some b)).2.maxPriorityFeePerGas? = some (gwei 1) ∧
    (feeTiers (some b)).2.maxFeePerGas? = some (2 * b + gwei 1) ∧
    (feeTiers (some b)).1.gasPrice? = none ∧
    (feeTiers (some b)).2.gasPrice? = none ∧
    feeTiers none = (.legacy (gwei 100), .legacy (gwei 20)) := by
  refine ⟨rfl, ?_, rfl, ?_, rfl, rfl, rfl⟩ <;>
  · simp only [feeTiers, FeeConfig.maxFeePerGas?, Option.some.injEq]
    omega

/-- C2: the verdict is a pure function of the two receipts with exactly
three outcomes — same block with the update's (A's) index below the swap's
(B's) gives update-first, same block with the swap's index below the
update's gives swap-first, and differing block numbers give
different-blocks carrying both block numbers and no ordering claim. -/
theorem ordering_verdict_cases (rS rU : Receipt) :
    (rU.blockNumber = rS.blockNumber →
      rU.transactionIndex < rS.transactionIndex →
      orderingVerdict rS rU =
        .sameBlockUpdateFirst rS.transactionIndex rU.transactionIndex) ∧
    (rU.blockNumber = rS.blockNumber →
      rS.transactionIndex < rU.transactionIndex →
      orderingVerdict rS rU =
        .sameBlockSwapFirst rS.transactionIndex rU.transactionIndex) ∧
    (rU.blockNumber ≠ rS.blockNumber →
      orderingVerdict rS rU = .differentBlocks rS.blockNumber rU.blockNumber) := by
  refine ⟨?_, ?_, ?_⟩
  · intro hb hlt
    have hb' : rS.blockNumber = rU.blockNumber := hb.symm
    have hnlt : ¬ rS.transactionIndex < rU.transactionIndex := by omega
    simp [orderingVerdict, hb', hnlt]
  · intro hb hlt
    have hb' : rS.blockNumber = rU.blockNumber := hb.symm
    simp [orderingVerdict, hb', hlt]
  · intro hne
    have hne' : ¬ rS.blockNumber = rU.blockNumber := fun h => hne h.symm
    simp [orderingVerdict, hne']

/-- C2 witness: the three cases at the spec's concrete indices — same block
100 with indices (2, 5) for (update, swap) gives update-first, (5, 2) gives
swap-first, and blocks (100, 101) give different-blocks. -/
theorem ordering_verdict_cases_witness :
    orderingVerdict ⟨1, 100, 0, 5, 21000, 0⟩ ⟨1, 100, 0, 2, 21000, 0⟩ =
      .sameBlockUpdateFirst 5 2 ∧
    orderingVerdict ⟨1, 100, 0, 2, 21000, 0⟩ ⟨1, 100, 0, 5, 21000, 0⟩ =
      .sameBlockSwapFirst 2 5 ∧
    orderingVerdict ⟨1, 100, 0, 2, 21000, 0⟩ ⟨1, 101, 0, 5, 21000, 0⟩ =
      .differentBlocks 100 101 :=
  ⟨(ordering_verdict_cases ⟨1, 100, 0, 5, 21000, 0⟩ ⟨1, 100, 0, 2, 21000, 0⟩).1
      rfl (by decide),
   (ordering_verdict_cases ⟨1, 100, 0, 2, 21000, 0⟩ ⟨1, 100, 0, 5, 21000, 0⟩).2.1
      rfl (by decide),
   (ordering_verdict_cases ⟨1, 100, 0, 2, 21000, 0⟩ ⟨1, 101, 0, 5, 21000, 0⟩).2.2
      (by decide)⟩

/-- C3 counterexample: two receipts sharing block 757 with equal
transaction index 3 are classified update-first (the swap-index-not-lower
branch), not swap-first (SameBlockBFirst), and the classification carries
no warning — the equality is not surfaced as an anomaly. -/
theorem equal_indices_counterexample :
    orderingVerdict ⟨1, 757, 0, 3, 0, 0⟩ ⟨1, 757, 0, 3, 0, 0⟩ =
      .sameBlockUpdateFirst 3 3 ∧
    orderingVerdict ⟨1, 757, 0, 3, 0, 0⟩ ⟨1, 757, 0, 3, 0, 0⟩ ≠
      .sameBlockSwapFirst 3 3 ∧
    printsWarning (orderingVerdict ⟨1, 757, 0, 3, 0, 0⟩ ⟨1, 757, 0, 3, 0, 0⟩) =
      false := by
  decide

/-- C3 amended: for every pair of receipts sharing a block number with
equal transaction indices, the verdict classifies the pair as
update-first (SameBlockAFirst) — the swap-index-strictly-lower test fails —
and the report carries no warning glyph; the tie is not surfaced. -/
theorem equal_indices_update_first (rS rU : Receipt)
    (hb : rS.blockNumber = rU.blockNumber)
    (hi : rS.transactionIndex = rU.transactionIndex) :
    orderingVerdict rS rU =
      .sameBlockUpdateFirst rS.transactionIndex rU.transactionIndex ∧
    printsWarning (orderingVerdict rS rU) = false := by
  have hnlt : ¬ rS.transactionIndex < rU.transactionIndex := by omega
  simp [orderingVerdict, hb, hnlt, printsWarning]

/-- C3 amended, witness: concrete receipts in block 9, both at index 4. -/
theorem equal_indices_update_first_witness :
    orderingVerdict ⟨0, 9, 0, 4, 0, 0⟩ ⟨1, 9, 0, 4, 0, 0⟩ =
      .sameBlockUpdateFirst 4 4 ∧
    printsWarning (orderingVerdict ⟨0, 9, 0, 4, 0, 0⟩ ⟨1, 9, 0, 4, 0, 0⟩) = false :=
  equal_indices_update_first ⟨0, 9, 0, 4, 0, 0⟩ ⟨1, 9, 0, 4, 0, 0⟩ rfl rfl

/-- C4: on every run, the update transaction (A, `setBatch` to
GlobalStorage) gets the base nonce and the low fee tier, and the swap
transaction (B, `swapXtoY` to PropAMM) gets the base nonce plus one and the
high fee tier — in fee-market mode tips 1 gwei vs 10 gwei, in legacy mode
gas prices 20 gwei vs 100 gwei. -/
theorem nonce_and_fee_pairing (inp : ChainInputs) :
    (buildTransactions inp).1.nonce = inp.pendingNonce ∧
    (buildTransactions inp).2.nonce = inp.pendingNonce + 1 ∧
    (buildTransactions inp).1.toAddr = GLOBAL_STORAGE_ADDRESS ∧
    (buildTransactions inp).1.callData =
      .setBatch inp.parameterKeys inp.encodedValues ∧
    (buildTransactions inp).2.toAddr = PROP_AMM_ADDRESS ∧
    (buildTransactions inp).2.callData = swapCall ∧
    (buildTransactions inp).1.fee = (feeTiers inp.baseFee).2 ∧
    (buildTransactions inp).2.fee = (feeTiers inp.baseFee).1 ∧
    (∀ b, inp.baseFee = some b →
      (buildTransactions inp).1.fee = .eip1559 (gwei 1) (b * 2 + gwei 1) ∧
      (buildTransactions inp).2.fee = .eip1559 (gwei 10) (b * 2 + gwei 10)) ∧
    (inp.baseFee = none →
      (buildTransactions inp).1.fee = .legacy (gwei 20) ∧
      (buildTransactions inp).2.fee = .legacy (gwei 100)) := by
  refine ⟨rfl, rfl, rfl, rfl, rfl, rfl, rfl, rfl, ?_, ?_⟩
  · intro b hb
    exact ⟨by simp [buildTransactions, feeTiers, hb], by simp [buildTransactions, feeTiers, hb]⟩
  · intro hb
    exact ⟨by simp [buildTransactions, feeTiers, hb], by simp [buildTransactions, feeTiers, hb]⟩

/-- C4 witness: with base fee 7 wei and pending count 5, the update gets
nonce 5 and the 1-gwei tier, the swap gets nonce 6 and the 10-gwei tier. -/
theorem nonce_and_fee_pairing_witness :
    (buildTransactions ⟨1, 2, some 7, 5, 100, 200, [], []⟩).1.fee =
      .eip1559 (gwei 1) (7 * 2 + gwei 1) ∧
    (buildTransactions ⟨1, 2, some 7, 5, 100, 200, [], []⟩).2.fee =
      .eip1559 (gwei 10) (7 * 2 + gwei 10) :=
  (nonce_and_fee_pairing ⟨1, 2, some 7, 5, 100, 200, [], []⟩).2.2.2.2.2.2.2.2.1 7 rfl

/-- C5: the trace of `main` queries the pending-inclusive transaction count
exactly once, and for every queried pending count the nonce pair placed in
the two built transactions is exactly `(n, n + 1)` — contiguous and
strictly increasing. -/
theorem nonce_sequencer_single_query_pair (inp : ChainInputs) :
    mainTrace.count .queryTransactionCount = 1 ∧
    (buildTransactions inp).1.nonce = inp.pendingNonce ∧
    (buildTransactions inp).2.nonce = inp.pendingNonce + 1 ∧
    (buildTransactions inp).1.nonce < (buildTransactions inp).2.nonce := by
  refine ⟨by decide, rfl, rfl, ?_⟩
  simp [buildTransactions]

/-- C6: each built transaction's gas limit is that transaction's own
upstream gas estimate plus exactly 20000; the builder is a pure assembly of
its inputs and performs no estimation of its own. -/
theorem gas_limit_margin (inp : ChainInputs) :
    (buildTransactions inp).1.gas = inp.gasUpdateEstimate + 20000 ∧
    (buildTransactions inp).2.gas = inp.gasSwapEstimate + 20000 :=
  ⟨rfl, rfl⟩

/-- C7 counterexample: at base fee 1,000,000,000 wei the high tier's max
fee is 12,000,000,000 wei (2 × 1 gwei + 10 gwei), not the claimed
2,000,010,000. -/
theorem scenario_maxfee_counterexample :
    (feeTiers (some 1000000000)).1.maxFeePerGas? = some 12000000000 ∧
    ¬ (feeTiers (some 1000000000)).1.maxFeePerGas? = some 2000010000 := by
  decide

/-- C7 amended: at base fee 1,000,000,000 wei with tips 10 gwei / 1 gwei
the high tier's max fee is 12,000,000,000 wei; nonce base 42 yields the
pair (42, 43); and receipts both in block 757 with the swap (B) at index 0
and the update at index 1 yield the swap-first (SameBlockBFirst) verdict. -/
theorem scenario_end_to_end :
    (feeTiers (some 1000000000)).1.maxFeePerGas? = some 12000000000 ∧
    (feeTiers (some 1000000000)).1.maxPriorityFeePerGas? = some (gwei 10) ∧
    (buildTransactions ⟨412346, 0, some 1000000000, 42, 0, 0, [], []⟩).1.nonce = 42 ∧
    (buildTransactions ⟨412346, 0, some 1000000000, 42, 0, 0, [], []⟩).2.nonce = 43 ∧
    orderingVerdict ⟨1, 757, 0, 0, 0, 0⟩ ⟨1, 757, 0, 1, 0, 0⟩ =
      .sameBlockSwapFirst 0 1 := by
  decide

/-- C8: in the program-order trace of `main`, every submission dispatch
precedes every submission-result await, and every receipt-wait dispatch
precedes every receipt await — neither fan-out serializes one branch
behind the other's completion. -/
theorem concurrent_fanout :
    (∀ i ∈ positions isSubmitInit mainTrace,
      ∀ j ∈ positions isSubmitAwait mainTrace, i < j) ∧
    (∀ i ∈ positions isReceiptWaitInit mainTrace,
      ∀ j ∈ positions isReceiptWaitAwait mainTrace, i < j) := by
  decide

/-- C8 witness: the first submission dispatch (position 9) precedes the
first result await (position 11), and the first receipt-wait dispatch
(position 13) precedes the first receipt await (position 15). -/
theorem concurrent_fanout_witness :
    (9 ∈ positions isSubmitInit mainTrace ∧
      11 ∈ positions isSubmitAwait mainTrace ∧ 9 < 11) ∧
    (13 ∈ positions isReceiptWaitInit mainTrace ∧
      15 ∈ positions isReceiptWaitAwait mainTrace ∧ 13 < 15) :=
  ⟨⟨by decide, by decide, concurrent_fanout.1 9 (by decide) 11 (by decide)⟩,
   ⟨by decide, by decide, concurrent_fanout.2 13 (by decide) 15 (by decide)⟩⟩

/-- C9: the verdict reads only block numbers and transaction indices — two
receipt pairs agreeing on those fields but arbitrary in status (and in
every other field) classify identically. -/
theorem verdict_status_noninterference (rS rU rS' rU' : Receipt)
    (hbS : rS.blockNumber = rS'.blockNumber)
    (hbU : rU.blockNumber = rU'.blockNumber)
    (hiS : rS.transactionIndex = rS'.transactionIndex)
    (hiU : rU.transactionIndex = rU'.transactionIndex) :
    orderingVerdict rS rU = orderingVerdict rS' rU' := by
  simp [orderingVerdict, hbS, hbU, hiS, hiU]

/-- C9 witness: flipping both status fields (and hash/gas fields) of a
same-block receipt pair leaves the verdict unchanged. -/
theorem verdict_status_noninterference_witness :
    orderingVerdict ⟨1, 8, 0, 2, 0, 0⟩ ⟨0, 8, 0, 6, 0, 0⟩ =
      orderingVerdict ⟨0, 8, 3, 2, 9, 9⟩ ⟨1, 8, 3, 6, 9, 9⟩ :=
  verdict_status_noninterference ⟨1, 8, 0, 2, 0, 0⟩ ⟨0, 8, 0, 6, 0, 0⟩
    ⟨0, 8, 3, 2, 9, 9⟩ ⟨1, 8, 3, 6, 9, 9⟩ rfl rfl rfl rfl

/-- C10: on every run the built swap transaction carries the `swapXtoY`
call with `minAmountYOut` fixed to 0 — no lower bound on the output
amount, independent of every chain input. -/
theorem swap_min_out_zero (inp : ChainInputs) :
    (buildTransactions inp).2.callData = .swapXtoY PAIR_ID swapAmountWeth 0 ∧
    (buildTransactions inp).2.callData.minAmountYOut? = some 0 :=
  ⟨rfl, rfl⟩

end RaceSwapVsUpdate
